import Mathlib

/-!
Shallow embedding of `discord/scheduled_event.py` (class `ScheduledEvent`)
and the wire shapes of `discord/types/scheduled_event.py` from the
DMLooter/discord.py repository, together with theorems checking the
natural-language specification of the module against the code.

Python dictionaries arriving from the wire are modelled as a `Payload`
structure whose fields are `Option`-valued: `none` means the key is absent
(`payload[k]` raises `KeyError`, `payload.get(k, d)` yields `d`), while
`some v` means the key is present with value `v`.  Keys whose wire value
may itself be JSON `null` are modelled as `Option (Option _)`: the outer
layer is key presence, the inner layer nullability.  Exceptions raised by
the Python code are modelled with `Except PyErr`; because Python attribute
assignment mutates the object field by field, an exception raised part-way
through `_from_data` leaves the earlier assignments in place, so the
embedding of `_from_data` returns the (possibly partially updated) object
state alongside the exception.
-/

namespace Discord

/-- Exceptions the embedded code can raise, plus the `ValidationError`
kind named by the specification's error taxonomy (the source never
constructs it, which several theorems below make precise). -/
inductive PyErr where
  | keyError (key : String)
  | nameError (missing : String)
  | typeError (msg : String)
  | validationError (msg : String)
  | remote (msg : String)
  deriving Repr, DecidableEq

/-- The `entity_metadata` nested object (`ScheduledEventEntity` in
`types/scheduled_event.py`): a dict with an optional `location` key. -/
structure EntityMetadata where
  location : Option String
  deriving Repr, DecidableEq

/-- Opaque user data carried under the `creator` key; the `User`
constructor is out of scope and treated as an opaque wrapper. -/
structure UserData where
  userId : Nat
  deriving Repr, DecidableEq

/-- An object with an `id` attribute, as consumed by
`[role.id for role in roles]` in `edit`. -/
structure SnowflakeRef where
  id : Nat
  deriving Repr, DecidableEq

/-- Modelled from the spec: an aware instant produced by coercing an
ISO-8601 timestamp string; `discord/utils.py` (which holds `parse_time`)
is not under `src/`, so the instant is modelled as the carried timestamp
string, which is all the claims need. -/
structure Instant where
  iso : String
  deriving Repr, DecidableEq

/-- Modelled from the spec: `utils.parse_time` coerces an ISO-8601 string
to an instant and maps `null` to `None`. -/
def parse_time (s : Option String) : Option Instant :=
  s.map Instant.mk

/-- Modelled from the spec: the status tag set
{SCHEDULED, ACTIVE, COMPLETED, CANCELED} with wire codes `[1,2,3,4]`
(per `EventStatus` in `types/scheduled_event.py`), plus the sentinel
`unknown` tag for unrecognized codes. `discord/enums.py` is not under
`src/`. -/
inductive ScheduledEventStatus where
  | scheduled
  | active
  | completed
  | canceled
  | unknown (code : Nat)
  deriving Repr, DecidableEq

/-- Modelled from the spec: `try_enum ScheduledEventStatus` decodes a wire
code, mapping unrecognized codes to the `unknown` tag rather than
failing. -/
def tryEnumStatus (code : Nat) : ScheduledEventStatus :=
  match code with
  | 1 => .scheduled
  | 2 => .active
  | 3 => .completed
  | 4 => .canceled
  | c => .unknown c

/-- Modelled from the spec: the entity-type tag set
{STAGE_INSTANCE, VOICE, EXTERNAL} with wire codes `[1,2,3]`
(per `ScheduledEventEntityType` in `types/scheduled_event.py`), plus the
sentinel `unknown` tag. -/
inductive ScheduledEventEntityType where
  | stage_instance
  | voice
  | external
  | unknown (code : Nat)
  deriving Repr, DecidableEq

/-- Modelled from the spec: `try_enum ScheduledEventEntityType`. -/
def tryEnumEntityType (code : Nat) : ScheduledEventEntityType :=
  match code with
  | 1 => .stage_instance
  | 2 => .voice
  | 3 => .external
  | c => .unknown c

/-- Modelled from the spec: the service reference epoch (milliseconds)
added by `snowflake_time`. -/
def DISCORD_EPOCH : Nat := 1420070400000

/-- Modelled from the spec: `utils.snowflake_time` (not under `src/`)
decodes the creation instant embedded in a snowflake id by right-shifting
out the low 22 bits and adding the service reference epoch; the result is
the creation time in epoch milliseconds. -/
def snowflake_time (id : Nat) : Nat :=
  (id >>> 22) + DISCORD_EPOCH

/-- A wire payload (a Python dict).  Outer `Option` is key presence;
`Option (Option _)` fields additionally carry wire nullability. -/
structure Payload where
  id : Option Nat := none
  name : Option String := none
  guild_id : Option Nat := none
  channel_id : Option (Option Nat) := none
  creator_id : Option Nat := none
  description : Option String := none
  scheduled_start_time : Option (Option String) := none
  scheduled_end_time : Option (Option String) := none
  privacy_level : Option Nat := none
  status : Option Nat := none
  entity_type : Option Nat := none
  entity_metadata : Option (Option EntityMetadata) := none
  user_count : Option Nat := none
  image : Option (Option String) := none
  creator : Option UserData := none
  deriving Repr, DecidableEq

/-- The attribute state of a `ScheduledEvent` instance (the `__slots__`
of the class, minus the opaque `_state` handle). -/
structure ScheduledEvent where
  id : Nat
  name : String
  guild_id : Nat
  channel_id : Option Nat
  creator_id : Nat
  description : String
  scheduled_start_time : Option Instant
  scheduled_end_time : Option Instant
  privacy_level : Nat
  status : ScheduledEventStatus
  entity_type : ScheduledEventEntityType
  location : Option String
  user_count : Nat
  image : Option String
  creator : Option UserData
  deriving Repr, DecidableEq

/-- `int(channel) if channel else None` (line 143): `None` and `0` are
falsy, so both collapse to `None`. -/
def channelOf (channel : Option Nat) : Option Nat :=
  match channel with
  | some c => if c = 0 then none else some c
  | none => none

/-- `metadata.get(key, None) if metadata else None` for the `location`
key (line 154): a `null` metadata object yields `None`. -/
def locationOf (metadata : Option EntityMetadata) : Option String :=
  match metadata with
  | some m => m.location
  | none => none

/-- `ScheduledEvent._from_data` (lines 137-158), embedded with explicit
state threading: each Python attribute assignment updates the state, a
`payload[key]` access on an absent key raises `KeyError` and stops the
method with the assignments made so far kept, and `payload.get(key, d)`
never raises.  Returns the raised exception (if any) together with the
final attribute state. -/
def _from_data (self : ScheduledEvent) (p : Payload) :
    Except PyErr Unit × ScheduledEvent :=
  match p.id with
  | none => (.error (.keyError "id"), self)
  | some idv =>
  let s := { self with id := idv }
  match p.name with
  | none => (.error (.keyError "name"), s)
  | some nm =>
  let s := { s with name := nm }
  match p.guild_id with
  | none => (.error (.keyError "guild_id"), s)
  | some g =>
  let s := { s with guild_id := g }
  match p.channel_id with
  | none => (.error (.keyError "channel_id"), s)
  | some ch =>
  let s := { s with channel_id := channelOf ch }
  let s := { s with creator_id := p.creator_id.getD 0 }
  match p.description with
  | none => (.error (.keyError "description"), s)
  | some d =>
  let s := { s with description := d }
  match p.scheduled_start_time with
  | none => (.error (.keyError "scheduled_start_time"), s)
  | some st =>
  let s := { s with scheduled_start_time := parse_time st }
  match p.scheduled_end_time with
  | none => (.error (.keyError "scheduled_end_time"), s)
  | some et =>
  let s := { s with scheduled_end_time := parse_time et }
  match p.privacy_level with
  | none => (.error (.keyError "privacy_level"), s)
  | some pl =>
  let s := { s with privacy_level := pl }
  match p.status with
  | none => (.error (.keyError "status"), s)
  | some stc =>
  let s := { s with status := tryEnumStatus stc }
  match p.entity_type with
  | none => (.error (.keyError "entity_type"), s)
  | some etc =>
  let s := { s with entity_type := tryEnumEntityType etc }
  match p.entity_metadata with
  | none => (.error (.keyError "entity_metadata"), s)
  | some md =>
  let s := { s with location := locationOf md }
  let s := { s with user_count := p.user_count.getD 0 }
  match p.image with
  | none => (.error (.keyError "image"), s)
  | some img =>
  let s := { s with image := img }
  let s := { s with creator := p.creator }
  (.ok (), s)

/-- The names bound at module level of `discord/scheduled_event.py` at
runtime: the `typing` imports (line 26), the `annotations` future import
(line 25), the relative imports (lines 28-33), `__all__` (line 35) and
the class itself.  The `if TYPE_CHECKING:` imports (lines 39-45) bind
nothing at runtime.  Note that neither `_ScheduledEventTag` (used on
line 177), nor `Emoji` (line 258), nor `PartialScheduledEvent`
(line 161) is bound. -/
def moduleGlobals : List String :=
  ["annotations", "Any", "Iterator", "List", "Optional", "TYPE_CHECKING",
   "Tuple", "utils", "MISSING", "Asset", "AssetMixin", "SnowflakeList",
   "snowflake_time", "ScheduledEventStatus", "ScheduledEventEntityType",
   "try_enum", "User", "__all__", "ScheduledEvent"]

/-- Python global-name resolution inside the module: an unbound name
raises `NameError`. -/
def resolveGlobal (n : String) : Except PyErr Unit :=
  if moduleGlobals.contains n then .ok () else .error (.nameError n)

/-- `ScheduledEvent.__eq__` (lines 176-177):
`isinstance(other, _ScheduledEventTag) and self.id == other.id`.
Evaluating the `isinstance` check first resolves the global name
`_ScheduledEventTag`; when (as in this module) that name is unbound the
comparison raises `NameError`.  The second branch is the comparison the
line would compute if the name resolved to a tag class both instances
belong to. -/
def eqMethod (self other : ScheduledEvent) : Except PyErr Bool :=
  match resolveGlobal "_ScheduledEventTag" with
  | .error e => .error e
  | .ok _ => .ok (self.id == other.id)

/-- `ScheduledEvent.__hash__` (lines 182-183): `self.id >> 22`. -/
def hashMethod (self : ScheduledEvent) : Nat :=
  self.id >>> 22

/-- The `created_at` property (lines 185-188):
`snowflake_time(self.id)`. -/
def created_at (self : ScheduledEvent) : Nat :=
  snowflake_time self.id

/-- The keyword parameters the `edit` signature (line 218) accepts:
`name`, `roles`, `reason`.  Keyword arguments outside this list raise
`TypeError` before the method body runs. -/
def editKeywordParams : List String :=
  ["name", "roles", "reason"]

/-- Python keyword-argument binding for a call to `edit`: the first
keyword not in the signature raises `TypeError` and the body is never
entered (zero side effects). -/
def bindEditKwargs (kwargs : List String) : Except PyErr Unit :=
  match kwargs.find? (fun k => !(editKeywordParams.contains k)) with
  | some k => .error (.typeError ("edit got an unexpected keyword argument " ++ k))
  | none => .ok ()

/-- A value stored in the outgoing edit request dict. -/
inductive EditVal where
  | str (s : String)
  | ids (l : List Nat)
  deriving Repr, DecidableEq

/-- The request-payload construction inlined in `edit` (lines 251-255):
start from `{}`, insert `name` if it was supplied (is not MISSING),
then insert `roles` (mapped to the id list) if supplied.  `none` models
the MISSING default. -/
def buildEditPayload (name : Option String) (roles : Option (List Nat)) :
    List (String × EditVal) :=
  (match name with
   | some n => [("name", EditVal.str n)]
   | none => []) ++
  (match roles with
   | some rs => [("roles", EditVal.ids rs)]
   | none => [])

/-- The observable outcome of one `edit` call. -/
structure EditResult where
  outcome : Except PyErr Unit
  finalState : ScheduledEvent
  transportCalls : Nat
  sentPayload : Option (List (String × EditVal))
  deriving Repr

/-- `ScheduledEvent.edit` (lines 218-258), with the transport outcome of
`self._state.http.edit_custom_emoji` passed in as `transport` (`.error`
models the HTTP call raising, `.ok` models it returning a response
payload).  The body builds the request dict, always issues exactly one
transport call, and on transport success executes
`return Emoji(guild=self.guild, data=data, state=self._state)`: Python
resolves the callable `Emoji` first, and that global is unbound in this
module, so the return statement raises `NameError`.  No branch assigns
to any attribute of `self`. -/
def edit (self : ScheduledEvent) (name : Option String)
    (roles : Option (List SnowflakeRef))
    (transport : Except String Payload) : EditResult :=
  let payload := buildEditPayload name (roles.map (fun rs => rs.map (fun r => r.id)))
  match transport with
  | .error e =>
      { outcome := .error (.remote e), finalState := self,
        transportCalls := 1, sentPayload := some payload }
  | .ok _data =>
      match resolveGlobal "Emoji" with
      | .error e =>
          { outcome := .error e, finalState := self,
            transportCalls := 1, sentPayload := some payload }
      | .ok _ =>
          { outcome := .ok (), finalState := self,
            transportCalls := 1, sentPayload := some payload }

/-- All the keys `_from_data` reads with raising `[]` access. -/
def hasAllKeys (p : Payload) : Bool :=
  p.id.isSome && p.name.isSome && p.guild_id.isSome && p.channel_id.isSome &&
  p.description.isSome && p.scheduled_start_time.isSome &&
  p.scheduled_end_time.isSome && p.privacy_level.isSome && p.status.isSome &&
  p.entity_type.isSome && p.entity_metadata.isSome && p.image.isSome

/-- A fresh instance before any `_from_data` call (Python slots are unset;
construction overwrites every field of interest, so the concrete initial
values are immaterial to the theorems that use this). -/
def initEvent : ScheduledEvent :=
  { id := 0, name := "", guild_id := 0, channel_id := none, creator_id := 0,
    description := "", scheduled_start_time := none,
    scheduled_end_time := none, privacy_level := 0, status := .unknown 0,
    entity_type := .unknown 0, location := none, user_count := 0,
    image := none, creator := none }

/-- An instance state previously hydrated from a full payload: it holds a
description, a creator id of 5 and id 1. -/
def priorEvent : ScheduledEvent :=
  { id := 1, name := "before", guild_id := 5, channel_id := some 42,
    creator_id := 5, description := "before-description",
    scheduled_start_time := some ⟨"2024-01-01T00:00:00+00:00"⟩,
    scheduled_end_time := none, privacy_level := 2, status := .scheduled,
    entity_type := .stage_instance, location := none, user_count := 2,
    image := none, creator := none }

/-- A representative full payload: every raising-access key present. -/
def fullPayload : Payload :=
  { id := some 10, name := some "after", guild_id := some 5,
    channel_id := some (some 42), creator_id := some 7,
    description := some "after-description",
    scheduled_start_time := some (some "2024-05-01T10:00:00+00:00"),
    scheduled_end_time := some (some "2024-05-01T12:00:00+00:00"),
    privacy_level := some 2, status := some 1, entity_type := some 1,
    entity_metadata := some none, user_count := some 3,
    image := some (some "imghash"), creator := none }

/-- `fullPayload` with the `description` key absent (a list/index-shaped
payload). -/
def pNoDesc : Payload :=
  { fullPayload with description := none }

/-- `fullPayload` with the `creator_id` key absent. -/
def pNoCreatorId : Payload :=
  { fullPayload with creator_id := none }

/-- `fullPayload` with `creator_id` explicitly 0. -/
def pZeroCreatorId : Payload :=
  { fullPayload with creator_id := some 0 }

/-- A full payload for a VOICE event (entity type code 2) whose
`channel_id` key carries `null`. -/
def pVoiceNullChannel : Payload :=
  { fullPayload with entity_type := some 2, channel_id := some none }

/-- A full payload for an EXTERNAL event (entity type code 3) whose
`scheduled_end_time` key carries `null`. -/
def pExternalNoEnd : Payload :=
  { fullPayload with entity_type := some 3, scheduled_end_time := some none }

/-- `fullPayload` with the unrecognized status code 99. -/
def p99 : Payload :=
  { fullPayload with status := some 99 }

/-- `fullPayload` with id 2, a different id than `priorEvent` holds. -/
def pFull2 : Payload :=
  { fullPayload with id := some 2 }

/-- C4: claimed `equals(a, b)` is true iff `a.id == b.id`; on the code
`__eq__` evaluates `isinstance(other, _ScheduledEventTag)` and the global
`_ScheduledEventTag` is unbound in the module, so every equality
comparison of two instances raises `NameError` instead of returning a
boolean. -/
theorem c4_eq_raises_NameError :
    ∀ a b : ScheduledEvent,
      eqMethod a b = .error (.nameError "_ScheduledEventTag") := by
  intro a b
  rfl

/-- C2: claimed that `edit` changing `entityType` to EXTERNAL without a
`scheduledEndTime` fails with `ValidationError` and zero transport calls;
on the code the `edit` signature does not even accept an `entity_type`
keyword (the call raises `TypeError` during argument binding), and every
call that does bind performs exactly one transport call unconditionally —
no validation path exists. -/
theorem c2_edit_has_no_validation :
    bindEditKwargs ["entity_type"] =
      .error (.typeError "edit got an unexpected keyword argument entity_type") ∧
    editKeywordParams.contains "entity_type" = false ∧
    ∀ (self : ScheduledEvent) (name : Option String)
      (roles : Option (List SnowflakeRef)) (transport : Except String Payload),
      (edit self name roles transport).transportCalls = 1 := by
  refine ⟨rfl, rfl, ?_⟩
  intro self name roles transport
  cases transport <;> rfl

/-- C3: claimed that a successful `edit` reparses the response into the
same instance and returns it; on the code the return statement
`Emoji(...)` references the unbound global `Emoji` and raises `NameError`
on every transport success, never reparsing.  The no-partial-mutation
half is true: no branch of `edit` assigns to any attribute of `self`. -/
theorem c3_edit_success_raises :
    ∀ (self : ScheduledEvent) (name : Option String)
      (roles : Option (List SnowflakeRef)),
      (∀ transport, (edit self name roles transport).finalState = self) ∧
      (∀ p : Payload,
        (edit self name roles (.ok p)).outcome = .error (.nameError "Emoji")) ∧
      (∀ e : String,
        (edit self name roles (.error e)).outcome = .error (.remote e)) := by
  intro self name roles
  refine ⟨fun t => ?_, fun p => rfl, fun e => rfl⟩
  cases t <;> rfl

/-- C8: `created_at` is `snowflake_time(self.id)`, which decodes the id
by right-shifting out the low 22 bits and adding the reference epoch, and
`snowflake_time` is monotonic: a higher id never yields an earlier
creation time. -/
theorem c8_created_at_monotonic :
    (∀ e : ScheduledEvent, created_at e = (e.id >>> 22) + DISCORD_EPOCH) ∧
    (∀ id1 id2 : Nat, id1 ≤ id2 → snowflake_time id1 ≤ snowflake_time id2) := by
  refine ⟨fun e => rfl, ?_⟩
  intro id1 id2 h
  unfold snowflake_time
  have hdiv : id1 >>> 22 ≤ id2 >>> 22 := by
    simpa [Nat.shiftRight_eq_div_pow] using Nat.div_le_div_right (c := 2 ^ 22) h
  exact Nat.add_le_add_right hdiv DISCORD_EPOCH

/-- Witness for C8 at concrete ids 100 and 175928847299117063. -/
theorem c8_created_at_monotonic_witness :
    snowflake_time 100 ≤ snowflake_time 175928847299117063 :=
  c8_created_at_monotonic.2 100 175928847299117063 (by decide)

/-- C9: the outgoing edit request contains exactly the keys the caller
supplied (MISSING fields are omitted, never sent as null), supplying only
`name` yields a one-key document, and `edit` sends exactly the document
built this way. -/
theorem c9_edit_request_exact_keys :
    (∀ (name : Option String) (roles : Option (List Nat)),
      (buildEditPayload name roles).map Prod.fst =
        (name.map (fun _ => "name")).toList ++
        (roles.map (fun _ => "roles")).toList) ∧
    ((buildEditPayload (some "X") none).map Prod.fst = ["name"]) ∧
    (∀ (self : ScheduledEvent) (name : Option String)
      (roles : Option (List SnowflakeRef)) (transport : Except String Payload),
      (edit self name roles transport).sentPayload =
        some (buildEditPayload name
          (roles.map (fun rs => rs.map (fun r => r.id))))) := by
  refine ⟨?_, rfl, ?_⟩
  · intro name roles
    cases name <;> cases roles <;> rfl
  · intro self name roles transport
    cases transport <;> rfl

/-- C7 amended: `_from_data` performs no id assertion; it unconditionally
overwrites `self.id` with the payload's id as its first assignment,
silently adopting a different id whenever one is supplied. -/
theorem c7_reparse_adopts_payload_id (self : ScheduledEvent) (p : Payload)
    (idv : Nat) (h : p.id = some idv) :
    ((_from_data self p).2).id = idv := by
  unfold _from_data
  rw [h]
  repeat' split
  all_goals simp_all

/-- C7 counterexample: reparsing `priorEvent` (id 1) with a full payload
carrying id 2 succeeds without any assertion error and the instance ends
up holding id 2 — the claimed fail-fast id check does not exist. -/
theorem c7_counterexample :
    priorEvent.id = 1 ∧ pFull2.id = some 2 ∧
    (_from_data priorEvent pFull2).1 = .ok () ∧
    ((_from_data priorEvent pFull2).2).id = 2 :=
  ⟨rfl, rfl, rfl, rfl⟩

/-- Witness for C7 amended at `priorEvent` and the id-2 payload. -/
theorem c7_reparse_adopts_payload_id_witness :
    ((_from_data priorEvent pFull2).2).id = 2 :=
  c7_reparse_adopts_payload_id priorEvent pFull2 2 rfl

/-- C1 amended: `_from_data` reads `description` with raising `[]`
access, so a payload lacking the key raises `KeyError` (the
`description` attribute itself is left holding its prior value, though
`id`, `name`, `guild_id`, `channel_id` and `creator_id` have already
been overwritten); a payload carrying all keys and a new `name` succeeds
and updates `name`; and fields read with `.get` defaults are reset, not
preserved: reparsing an instance whose `creator_id` is 5 with a payload
lacking `creator_id` resets it to 0. -/
theorem c1_amended :
    (∀ (self : ScheduledEvent) (p : Payload),
      p.id.isSome = true → p.name.isSome = true → p.guild_id.isSome = true →
      p.channel_id.isSome = true → p.description = none →
      (_from_data self p).1 = .error (.keyError "description") ∧
      ((_from_data self p).2).description = self.description) ∧
    (∀ (self : ScheduledEvent) (p : Payload) (nm : String),
      hasAllKeys p = true → p.name = some nm →
      (_from_data self p).1 = .ok () ∧
      ((_from_data self p).2).name = nm) ∧
    (priorEvent.creator_id = 5 ∧
     (_from_data priorEvent pNoCreatorId).1 = .ok () ∧
     ((_from_data priorEvent pNoCreatorId).2).creator_id = 0) := by
  refine ⟨?_, ?_, rfl, rfl, rfl⟩
  · intro self p h1 h2 h3 h4 h5
    unfold _from_data
    repeat' split
    all_goals simp_all
  · intro self p nm hfull hnm
    unfold hasAllKeys at hfull
    simp only [Bool.and_eq_true] at hfull
    unfold _from_data
    repeat' split
    all_goals simp_all

/-- Witness for C1 amended at `priorEvent` with the description-less
payload and the full payload. -/
theorem c1_amended_witness :
    ((_from_data priorEvent pNoDesc).1 = .error (.keyError "description") ∧
     ((_from_data priorEvent pNoDesc).2).description =
       priorEvent.description) ∧
    ((_from_data priorEvent fullPayload).1 = .ok () ∧
     ((_from_data priorEvent fullPayload).2).name = "after") :=
  ⟨c1_amended.1 priorEvent pNoDesc rfl rfl rfl rfl rfl,
   c1_amended.2.1 priorEvent fullPayload "after" rfl rfl⟩

/-- C1 counterexample: reparsing a hydrated instance with a payload
lacking `description` does not preserve-and-succeed, it raises
`KeyError`; and a payload lacking `creator_id` silently replaces the
previously held creator id 5 with 0, so absent fields are not "never
cleared or replaced". -/
theorem c1_counterexample :
    (_from_data priorEvent pNoDesc).1 = .error (.keyError "description") ∧
    priorEvent.creator_id = 5 ∧
    (_from_data priorEvent pNoCreatorId).1 = .ok () ∧
    ((_from_data priorEvent pNoCreatorId).2).creator_id = 0 :=
  ⟨rfl, rfl, rfl, rfl⟩

/-- C10 amended: when the `creator_id` key is absent, `_from_data` sets
the attribute to the integer 0 (`payload.get(key, 0)`), not to a
distinguished absent value. -/
theorem c10_absent_creator_id_is_zero :
    ∀ (self : ScheduledEvent) (p : Payload),
      p.id.isSome = true → p.name.isSome = true → p.guild_id.isSome = true →
      p.channel_id.isSome = true → p.creator_id = none →
      ((_from_data self p).2).creator_id = 0 := by
  intro self p h1 h2 h3 h4 h5
  unfold _from_data
  repeat' split
  all_goals simp_all

/-- Witness for C10 amended at the creator-less payload. -/
theorem c10_absent_creator_id_is_zero_witness :
    ((_from_data initEvent pNoCreatorId).2).creator_id = 0 :=
  c10_absent_creator_id_is_zero initEvent pNoCreatorId rfl rfl rfl rfl rfl

/-- C10 counterexample: an absent `creator_id` produces the integer 0,
and the resulting instance is byte-for-byte identical to the one built
from the same payload with an explicit `creator_id` of 0 — an unknown
creator is not distinguishable from creator id 0. -/
theorem c10_counterexample :
    (_from_data initEvent pNoCreatorId).1 = .ok () ∧
    ((_from_data initEvent pNoCreatorId).2).creator_id = 0 ∧
    (_from_data initEvent pNoCreatorId).2 =
      (_from_data initEvent pZeroCreatorId).2 :=
  ⟨rfl, rfl, rfl⟩

/-- C5 amended: `channel_id` is computed from the payload's `channel_id`
value alone (`null` and 0 both collapse to `None`), independently of
`entity_type`, and no validation rejects invariant-violating full
payloads: an EXTERNAL payload with a `null` `scheduled_end_time`
constructs successfully. -/
theorem c5_channel_independent_of_entity_type :
    (∀ (self : ScheduledEvent) (p : Payload) (ch : Option Nat),
      p.id.isSome = true → p.name.isSome = true → p.guild_id.isSome = true →
      p.channel_id = some ch →
      ((_from_data self p).2).channel_id = channelOf ch) ∧
    ((_from_data initEvent pExternalNoEnd).1 = .ok () ∧
     ((_from_data initEvent pExternalNoEnd).2).entity_type = .external ∧
     ((_from_data initEvent pExternalNoEnd).2).scheduled_end_time = none) := by
  refine ⟨?_, rfl, rfl, rfl⟩
  intro self p ch h1 h2 h3 h4
  unfold _from_data
  repeat' split
  all_goals simp_all

/-- Witness for C5 amended at the VOICE payload with a null channel. -/
theorem c5_channel_independent_of_entity_type_witness :
    ((_from_data initEvent pVoiceNullChannel).2).channel_id =
      channelOf none :=
  c5_channel_independent_of_entity_type.1 initEvent pVoiceNullChannel none
    rfl rfl rfl rfl

/-- C5 counterexample: a full payload for a VOICE event (entity type not
EXTERNAL) whose `channel_id` is `null` is accepted without error and
yields an instance with a null `channel_id` — violating "channelId is
null exactly when entityType = EXTERNAL" with no schema validation
rejecting it. -/
theorem c5_counterexample :
    (_from_data initEvent pVoiceNullChannel).1 = .ok () ∧
    ((_from_data initEvent pVoiceNullChannel).2).channel_id = none ∧
    ((_from_data initEvent pVoiceNullChannel).2).entity_type = .voice :=
  ⟨rfl, rfl, rfl⟩

/-- C6: a payload with the unrecognized status code 99 parses without
raising, mapping the code to the `unknown 99` tag, and `hashCode` and
`createdAt` on the result succeed; but `equals` does not succeed — it
raises `NameError` because `_ScheduledEventTag` is unbound (an
independent defect of `__eq__`, present for every status code). -/
theorem c6_unknown_status_tolerated :
    (_from_data initEvent p99).1 = .ok () ∧
    ((_from_data initEvent p99).2).status = .unknown 99 ∧
    hashMethod ((_from_data initEvent p99).2) = 0 ∧
    created_at ((_from_data initEvent p99).2) = 1420070400000 ∧
    eqMethod ((_from_data initEvent p99).2) ((_from_data initEvent p99).2) =
      .error (.nameError "_ScheduledEventTag") :=
  ⟨rfl, rfl, rfl, rfl, rfl⟩

end Discord
